import Mathlib

/-!
Shallow embedding of the audio decode / resample / synchronization pipeline of
`src/video/audioparserunnable.cpp` (FFmpegDecoder::audioParseRunnable and
FFmpegDecoder::handleAudioPacket).

Modelling conventions:
* C integer quantities that are nonnegative in every execution considered here
  (sample counts, rates, channel counts, byte sizes, stream indices) are `Nat`;
  C++ integer division on nonnegative operands truncates, which is `Nat` division.
* C `double` values (the shared clocks, the time base, drift thresholds) are
  modelled as exact rationals `ℚ`.
* External library calls (swr_alloc_set_opts, swr_init, swr_convert,
  av_samples_get_buffer_size, av_get_bytes_per_sample, avcodec_* results,
  WriteAudio, interruption flags, GetHiResTime) are oracles supplied through
  environment records; the code under test is everything around them.
* The compare-and-swap retry loops on the shared clocks apply one bounded delta;
  from the single observer's view modelled here they are plain additions.
-/

namespace FFmpegPlayer

/-- `enum { EXTRA_SPACE = 256 }` inside FFmpegDecoder::handleAudioPacket. -/
def EXTRA_SPACE : Nat := 256

/-- `out_count = (int64_t)m_audioFrame->nb_samples * m_audioSettings.frequency /
m_audioFrame->sample_rate + EXTRA_SPACE`.  C++ `int64_t` division truncates toward
zero; all operands here are nonnegative, so this is `Nat` (floor) division. -/
def out_count (nb_samples targetFrequency sample_rate : Nat) : Nat :=
  nb_samples * targetFrequency / sample_rate + EXTRA_SPACE

/-- The capacity formula as the specification words it: `ceil(sourceSampleCount *
targetRate / sourceRate) + FIXED_HEADROOM` with a 256-sample headroom.  Stated
for comparison against `out_count`, which is what the code computes. -/
def spec_out_count (nb_samples targetFrequency sample_rate : Nat) : Nat :=
  (nb_samples * targetFrequency + sample_rate - 1) / sample_rate + EXTRA_SPACE

/-- `size_multiplier = m_audioSettings.channels *
av_get_bytes_per_sample(m_audioSettings.format)`. -/
def size_multiplier (targetChannels bytesPerTargetSample : Nat) : Nat :=
  targetChannels * bytesPerTargetSample

/-- `buffer_size = out_count * size_multiplier`: byte capacity of the scratch
buffer demanded for one converted frame. -/
def buffer_size (nb_samples targetFrequency sample_rate targetChannels
    bytesPerTargetSample : Nat) : Nat :=
  out_count nb_samples targetFrequency sample_rate *
    size_multiplier targetChannels bytesPerTargetSample

/-- `write_size = converted_size * size_multiplier`: bytes produced by a
successful `swr_convert` returning `converted_size` samples. -/
def write_size_of (converted_size targetChannels bytesPerTargetSample : Nat) : Nat :=
  converted_size * size_multiplier targetChannels bytesPerTargetSample

/-- `if (resampleBuffer.size() < buffer_size) resampleBuffer.resize(buffer_size);`
— the caller-supplied scratch buffer grows to `target` when smaller and is never
shrunk. -/
def grownBufferSize (current target : Nat) : Nat :=
  if current < target then target else current

/-- `delta = m_videoStartClock + m_audioPTS - GetHiResTime()`. -/
def audioSyncDelta (videoStartClock audioPTS now : ℚ) : ℚ :=
  videoStartClock + audioPTS - now

/-- Drift correction delta applied to `m_videoStartClock`: when
`fabs(delta) > 0.1` the correction is `(delta < 0) ? 0.05 : -0.05`; otherwise
the clock is left alone (modelled as a zero delta). -/
def audioSyncCorrection (delta : ℚ) : ℚ :=
  if 1/10 < |delta| then (if delta < 0 then 1/20 else -(1/20)) else 0

/-- Value of `m_videoStartClock` after the audio-sync block: the CAS retry loop
adds the bounded correction exactly once. -/
def audioSync (videoStartClock audioPTS now : ℚ) : ℚ :=
  videoStartClock + audioSyncCorrection (audioSyncDelta videoStartClock audioPTS now)

/-- `frame_clock = (double)original_buffer_size / (audioFrameChannels *
m_audioFrame->sample_rate * av_get_bytes_per_sample(audioFrameFormat))`. -/
def frame_clock (original_buffer_size channels sample_rate bytesPerSample : Nat) : ℚ :=
  (original_buffer_size : ℚ) /
    ((channels : ℚ) * (sample_rate : ℚ) * (bytesPerSample : ℚ))

/-- Value of `m_audioPTS` after the delivery block: advanced by `frame_clock`
precisely when `WriteAudio` returned false and the frame's sample rate is
nonzero (`!m_audioPlayer->WriteAudio(...) && m_audioFrame->sample_rate`). -/
def advanceAudioPTS (audioPTS : ℚ) (writeAccepted : Bool)
    (original_buffer_size channels sample_rate bytesPerSample : Nat) : ℚ :=
  if writeAccepted = false ∧ sample_rate ≠ 0 then
    audioPTS + frame_clock original_buffer_size channels sample_rate bytesPerSample
  else audioPTS

/-- `m_audioSettings`: the fixed output format the sink expects. -/
structure AudioSettings where
  channel_layout : Nat
  format : Nat
  frequency : Nat
  channels : Nat
deriving DecidableEq, Repr

/-- `m_audioCurrentPref`: cached source-format signature of the last processed
frame (plus its channel count, which is stored but never compared). -/
structure AudioPrefs where
  format : Nat
  channels : Nat
  channel_layout : Nat
  frequency : Nat
deriving DecidableEq, Repr

/-- One decoded audio frame as seen by the per-frame loop body.
`channel_layout` is the already-computed `dec_channel_layout`
(the result of the `getChannelLayout` helper below). -/
structure FrameInfo where
  nb_samples : Nat
  format : Nat
  channels : Nat
  channel_layout : Nat
  sample_rate : Nat
deriving DecidableEq, Repr

/-- The anonymous-namespace `getChannelLayout` helper: use the frame's own
channel layout when it is set and consistent with the frame's channel count,
otherwise fall back to the default layout for that channel count.  The FFmpeg
queries `av_get_channel_layout_nb_channels` and `av_get_default_channel_layout`
are oracle parameters. -/
def getChannelLayout (nbChannelsOfLayout defaultLayoutOfChannels : Nat → Nat)
    (frameChannelLayout frameChannels : Nat) : Nat :=
  if frameChannelLayout ≠ 0 ∧ frameChannels = nbChannelsOfLayout frameChannelLayout then
    frameChannelLayout
  else defaultLayoutOfChannels frameChannels

/-- The swr-context rebuild condition from the code: the frame's (format,
dec_channel_layout, sample_rate) differs from `m_audioCurrentPref`'s (format,
channel_layout, frequency).  Note that the condition does not consult the
context pointer `m_audioSwrContext`. -/
def needRebuild (pref : AudioPrefs) (f : FrameInfo) : Bool :=
  (f.format != pref.format) || (f.channel_layout != pref.channel_layout) ||
    (f.sample_rate != pref.frequency)

/-- Oracles for the external FFmpeg library calls made by the frame handler.
Contexts are identified by `Nat` handles; `alloc` returning `none` models
`swr_alloc_set_opts` returning null. -/
structure LibEnv where
  alloc : Nat → Nat → Nat → Option Nat
  initOk : Nat → Bool
  convert : Nat → Nat → Nat → Int
  samplesBufferSize : Nat → Nat → Nat → Nat
  bytesPerSample : Nat → Nat

/-- Resampler state: `m_audioSwrContext` (none = null pointer) and
`m_audioCurrentPref`. -/
structure ResampleState where
  swrContext : Option Nat
  pref : AudioPrefs
deriving DecidableEq, Repr

/-- The "Check if the new swr context required" block: when `needRebuild`, the
old context is freed, `swr_alloc_set_opts` is called (its result stored whether
or not it is null), `swr_init` failure is only logged (the allocated context is
kept as is), and `m_audioCurrentPref` is updated unconditionally.  Returns the
new state and whether a rebuild happened. -/
def rebuildIfNeeded (env : LibEnv) (st : ResampleState) (f : FrameInfo) :
    ResampleState × Bool :=
  if needRebuild st.pref f then
    ({ swrContext := env.alloc f.format f.channel_layout f.sample_rate,
       pref := { format := f.format, channels := f.channels,
                 channel_layout := f.channel_layout, frequency := f.sample_rate } },
     true)
  else (st, false)

/-- Number of context rebuilds over a sequence of processed frame signatures. -/
def processSigRebuilds (env : LibEnv) (st : ResampleState) : List FrameInfo → Nat
  | [] => 0
  | f :: fs =>
    let r := rebuildIfNeeded env st f
    (if r.2 then 1 else 0) + processSigRebuilds env r.1 fs

/-- Whether the delivered bytes come from the frame's own buffer (`write_data` /
`write_size` left at their defaults) or from the resample scratch buffer. -/
inductive DataSrc
  | raw
  | resampled
deriving DecidableEq, Repr

/-- The `if (m_audioSwrContext)` resample block.  Input: current scratch-buffer
size and the (possibly rebuilt) context.  Output: new scratch-buffer size and
either `none` (swr_convert returned a negative count: hard failure for this
frame) or the produced `write_size` with its data source.  A conversion result
exactly equal to `out_count` only logs a warning and re-runs `swr_init` on the
same context; the produced bytes are kept. -/
def convertStage (env : LibEnv) (settings : AudioSettings) (bufSize : Nat)
    (ctx? : Option Nat) (f : FrameInfo) (original_buffer_size : Nat) :
    Nat × Option (Nat × DataSrc) :=
  match ctx? with
  | none => (bufSize, some (original_buffer_size, DataSrc.raw))
  | some ctx =>
    let oc := out_count f.nb_samples settings.frequency f.sample_rate
    let sm := size_multiplier settings.channels (env.bytesPerSample settings.format)
    let buf := grownBufferSize bufSize (oc * sm)
    let cs := env.convert ctx oc f.nb_samples
    if cs < 0 then (buf, none)
    else (buf, some (cs.toNat * sm, DataSrc.resampled))

/-- Mutable player state touched by the frame handler. -/
structure PlayerState where
  rs : ResampleState
  resampleBufSize : Nat
  audioPTS : ℚ
  videoStartClock : ℚ

/-- Result of one iteration of the `avcodec_receive_frame` loop body. -/
inductive FrameOutcome
  | skipped
  | convertFailed
  | cancelled
  | delivered (src : DataSrc) (writeSize : Nat) (accepted : Bool)
  | notWritten
deriving DecidableEq, Repr

/-- One iteration of the frame loop of FFmpegDecoder::handleAudioPacket:
skip frames without samples; rebuild the swr context if needed; resample (or
pass the raw bytes through when the context is null); run the audio-sync drift
correction; then, for a positive `write_size`, check the interruption flag and
deliver, advancing `m_audioPTS` when `WriteAudio` reports the buffer was not
immediately consumed.  `cancelNow` models `interruption_requested()`,
`writeAccepted` the `WriteAudio` result, `now` the `GetHiResTime()` reading. -/
def frameStep (env : LibEnv) (settings : AudioSettings)
    (cancelNow writeAccepted : Bool) (now : ℚ)
    (st : PlayerState) (f : FrameInfo) : PlayerState × FrameOutcome :=
  if f.nb_samples = 0 then (st, FrameOutcome.skipped)
  else
    let original_buffer_size := env.samplesBufferSize f.channels f.nb_samples f.format
    let rs := (rebuildIfNeeded env st.rs f).1
    let cv := convertStage env settings st.resampleBufSize rs.swrContext f
      original_buffer_size
    match cv.2 with
    | none => ({ st with rs := rs, resampleBufSize := cv.1 }, FrameOutcome.convertFailed)
    | some (write_size, src) =>
      let vClock := audioSync st.videoStartClock st.audioPTS now
      if 0 < write_size then
        if cancelNow then
          ({ st with rs := rs, resampleBufSize := cv.1, videoStartClock := vClock },
           FrameOutcome.cancelled)
        else
          ({ rs := rs, resampleBufSize := cv.1,
             audioPTS := advanceAudioPTS st.audioPTS writeAccepted
               original_buffer_size f.channels f.sample_rate
               (env.bytesPerSample f.format),
             videoStartClock := vClock },
           FrameOutcome.delivered src write_size writeAccepted)
      else
        ({ st with rs := rs, resampleBufSize := cv.1, videoStartClock := vClock },
         FrameOutcome.notWritten)

/-- The `while (avcodec_receive_frame(...) == 0)` drain loop: `frames` is the
sequence the decoder yields, `i` counts loop iterations so the oracles
(`cancel`, `writeOk`, `now`) may vary per iteration.  `convertFailed` breaks the
loop but still yields `true` from handleAudioPacket; a pending cancellation
returns `false` immediately, abandoning the remaining frames. -/
def processFrames (env : LibEnv) (settings : AudioSettings)
    (cancel writeOk : Nat → Bool) (now : Nat → ℚ) :
    PlayerState → Nat → List FrameInfo → PlayerState × List FrameOutcome × Bool
  | st, _, [] => (st, [], true)
  | st, i, f :: fs =>
    let r := frameStep env settings (cancel i) (writeOk i) (now i) st f
    match r.2 with
    | FrameOutcome.convertFailed => (r.1, [FrameOutcome.convertFailed], true)
    | FrameOutcome.cancelled => (r.1, [FrameOutcome.cancelled], false)
    | o =>
      let rest := processFrames env settings cancel writeOk now r.1 (i + 1) fs
      (rest.1, o :: rest.2.1, rest.2.2)

/-- An AVPacket as the audio thread sees it: owning stream index, optional
presentation timestamp (`none` = AV_NOPTS_VALUE) and payload size. -/
structure Packet where
  stream_index : Nat
  pts : Option Int
  size : Nat
deriving DecidableEq, Repr

/-- Oracle results of the three calls attempted when switching to a new
stream: `avcodec_parameters_to_context(...) >= 0`,
`avcodec_find_decoder(...) != nullptr`, `avcodec_open2(...) >= 0`. -/
structure StreamEnv where
  paramsToCtxOk : Bool
  findDecoderOk : Bool
  openOk : Bool
deriving DecidableEq, Repr

/-- The stream-switch succeeds only when all three decoder-reopen calls do. -/
def streamSwitchOk (e : StreamEnv) : Bool :=
  e.paramsToCtxOk && e.findDecoderOk && e.openOk

/-- Result of FFmpegDecoder::handleAudioPacket: its boolean return value, the
index of `m_audioStream` afterwards, whether `avcodec_close` ran on the old
decoder, the final player state, and the per-frame outcomes. -/
structure HandleResult where
  handled : Bool
  activeStream : Nat
  closedOldDecoder : Bool
  state : PlayerState
  outcomes : List FrameOutcome

/-- The body of handleAudioPacket after the stream-switch prologue:
`avcodec_send_packet` rejection returns false with no frames drained,
otherwise the frame drain loop runs. -/
def decodeBody (env : LibEnv) (settings : AudioSettings) (sendOk : Bool)
    (frames : List FrameInfo) (cancel writeOk : Nat → Bool) (now : Nat → ℚ)
    (closed : Bool) (active : Nat) (st : PlayerState) : HandleResult :=
  if sendOk then
    let r := processFrames env settings cancel writeOk now st 0 frames
    { handled := r.2.2, activeStream := active, closedOldDecoder := closed,
      state := r.1, outcomes := r.2.1 }
  else
    { handled := false, activeStream := active, closedOldDecoder := closed,
      state := st, outcomes := [] }

/-- FFmpegDecoder::handleAudioPacket.  A packet from a different stream first
closes the active decoder and reassigns `m_audioStream` (this happens before
the reopen attempts, so the descriptor is switched even on failure); if any of
the reopen calls fails the function returns false with no frames emitted. -/
def handleAudioPacketM (env : LibEnv) (settings : AudioSettings)
    (senv : StreamEnv) (sendOk : Bool) (frames : List FrameInfo)
    (cancel writeOk : Nat → Bool) (now : Nat → ℚ)
    (activeStream : Nat) (pkt : Packet) (st : PlayerState) : HandleResult :=
  if pkt.stream_index ≠ activeStream then
    if streamSwitchOk senv then
      decodeBody env settings sendOk frames cancel writeOk now true
        pkt.stream_index st
    else
      { handled := false, activeStream := pkt.stream_index,
        closedOldDecoder := true, state := st, outcomes := [] }
  else
    decodeBody env settings sendOk frames cancel writeOk now false activeStream st

/-- Observable events of one outer-loop iteration of audioParseRunnable, in
program order: setting the audio PTS baseline plus `AppendFrameClock(0)`,
invoking handleAudioPacket, and `av_packet_unref` on the held packet. -/
inductive AudioEvent
  | baseline (pts : ℚ)
  | handlePacket
  | unref
deriving DecidableEq, Repr

/-- How one iteration of the inner packet loop ends: `break` out of the inner
loop, loop again, or `return` from audioParseRunnable (thread ends). -/
inductive InnerExit
  | breakLoop
  | continueLoop
  | returnThread
deriving DecidableEq, Repr

/-- Outcome of one inner-loop iteration: exit kind, emitted events,
whether `handlePacketPostponed` was set (the packet is still held), and the new
values of `initialized` and `m_isAudioSeekingWhilePaused`. -/
structure InnerOut where
  exit : InnerExit
  events : List AudioEvent
  postponed : Bool
  inited : Bool
  seeking : Bool
deriving DecidableEq, Repr

/-- Lines after the first-packet block: `initialized = true;` a zero-size
packet logs and breaks; otherwise handleAudioPacket runs and the packet is
unreferenced, then `if (!handled || m_isPaused && !m_isAudioSeekingWhilePaused)
break;`. -/
def innerBody (ev : List AudioEvent) (seeking paused handled : Bool)
    (pkt : Packet) : InnerOut :=
  if pkt.size = 0 then
    { exit := InnerExit.breakLoop, events := ev, postponed := false,
      inited := true, seeking := seeking }
  else
    let ev := ev ++ [AudioEvent.handlePacket, AudioEvent.unref]
    if handled = false ∨ (paused = true ∧ seeking = false) then
      { exit := InnerExit.breakLoop, events := ev, postponed := false,
        inited := true, seeking := seeking }
    else
      { exit := InnerExit.continueLoop, events := ev, postponed := false,
        inited := true, seeking := seeking }

/-- One iteration of the inner packet loop of audioParseRunnable after a
successful queue pop.  On the very first packet: no usable PTS means
`assert(false); return;` (release builds return, ending the thread); otherwise
`m_audioPTS = av_q2d(m_audioStream->time_base) * packet.pts` and
`AppendFrameClock(0)` establish the baseline, and a pending
seek-while-paused postpones the packet (leaving `initialized` false, since
`initialized = true` sits below the `break`).  `handled` abstracts the result
of the handleAudioPacket call. -/
def innerStep (timeBase : ℚ) (inited seeking paused handled : Bool)
    (pkt : Packet) : InnerOut :=
  if inited = false then
    match pkt.pts with
    | none =>
      { exit := InnerExit.returnThread, events := [], postponed := false,
        inited := false, seeking := seeking }
    | some p =>
      let ev := [AudioEvent.baseline (timeBase * (p : ℚ))]
      if seeking then
        { exit := InnerExit.breakLoop, events := ev, postponed := true,
          inited := false, seeking := false }
      else innerBody ev seeking paused handled pkt
  else innerBody [] seeking paused handled pkt

/-- The `handlePacketPostponed` block at the top of the outer loop: the held
packet is always unreferenced; handleAudioPacket runs first (its result
ignored) unless seek-while-paused is still pending. -/
def postponedStep (seeking : Bool) : List AudioEvent :=
  if seeking then [AudioEvent.unref]
  else [AudioEvent.handlePacket, AudioEvent.unref]

/-- The catch handler of audioParseRunnable: it unreferences the packet exactly
when `handlePacketPostponed` is set. -/
def catchReleases (postponed : Bool) : Bool := postponed

/-- Claim C1, counterexample: a successful conversion whose returned sample
count equals the requested capacity `out_count` produces exactly
`buffer_size` bytes, not strictly fewer — at 1024 samples, 44100 → 44100 Hz,
2 target channels, 2 bytes per sample, the produced byte count is not below
the scratch capacity, refuting the claimed strict inequality for that case. -/
theorem C1_counterexample :
    ¬ write_size_of (out_count 1024 44100 44100) 2 2 <
        buffer_size 1024 44100 44100 2 2 := by
  decide

/-- Claim C1 (amended): a successful conversion returning strictly fewer
samples than the requested capacity produces strictly fewer bytes than the
scratch buffer's byte capacity (given nonzero target channels and bytes per
sample); when the returned count equals the requested capacity the produced
bytes exactly fill the capacity. -/
theorem C1_strict_bound (nb tf sr ch bps cs : Nat)
    (hch : 0 < ch) (hbps : 0 < bps) (hcs : cs < out_count nb tf sr) :
    write_size_of cs ch bps < buffer_size nb tf sr ch bps ∧
    write_size_of (out_count nb tf sr) ch bps = buffer_size nb tf sr ch bps := by
  refine ⟨?_, rfl⟩
  have hsm : 0 < size_multiplier ch bps := Nat.mul_pos hch hbps
  exact mul_lt_mul_of_pos_right hcs hsm

/-- Witness for C1_strict_bound at a concrete input. -/
theorem C1_strict_bound_witness :
    write_size_of 100 2 2 < buffer_size 1024 44100 44100 2 2 ∧
    write_size_of (out_count 1024 44100 44100) 2 2 =
      buffer_size 1024 44100 44100 2 2 :=
  C1_strict_bound 1024 44100 44100 2 2 100 (by decide) (by decide) (by decide)

/-- Claim C2, counterexample: the code's capacity `out_count` uses truncating
(floor) division, not the ceiling division the claim states — with 1 source
sample, target rate 3 and source rate 2 the code computes 1 + 256 = 257 while
the claimed ceiling formula gives 2 + 256 = 258. -/
theorem C2_counterexample : out_count 1 3 2 ≠ spec_out_count 1 3 2 := by
  decide

/-- Claim C2 (amended): the output capacity equals
floor(sourceSampleCount * targetRate / sourceRate) + 256 samples (truncating
integer division), and the caller-supplied scratch buffer is resized to
capacity * targetChannels * bytesPerTargetSample bytes exactly when it is
smaller, never shrunk — its new size is the maximum of its current size and
that byte count. -/
theorem C2_capacity_floor (nb tf sr ch bps cur : Nat) :
    out_count nb tf sr = nb * tf / sr + EXTRA_SPACE ∧
    grownBufferSize cur (buffer_size nb tf sr ch bps) =
      max cur (buffer_size nb tf sr ch bps) := by
  refine ⟨rfl, ?_⟩
  by_cases h : cur < buffer_size nb tf sr ch bps
  · simp [grownBufferSize, h, Nat.max_eq_right (Nat.le_of_lt h)]
  · simp [grownBufferSize, h, Nat.max_eq_left (Nat.le_of_not_lt h)]

/-- Claim C3: the drift correction to the playback-start clock is applied
exactly when |delta| > 0.1 where delta = videoStartClock + audioPTS - now, and
the applied delta is exactly +0.05 when delta < -0.1 and exactly -0.05 when
delta > 0.1; within the 0.1 band the clock is unchanged. -/
theorem C3_drift_correction (v p now : ℚ) :
    (audioSyncDelta v p now < -(1/10) → audioSync v p now = v + 1/20) ∧
    ((1/10 : ℚ) < audioSyncDelta v p now → audioSync v p now = v - 1/20) ∧
    (|audioSyncDelta v p now| ≤ 1/10 → audioSync v p now = v) ∧
    (audioSync v p now ≠ v ↔ (1/10 : ℚ) < |audioSyncDelta v p now|) := by
  have h1 : ∀ d : ℚ, d < -(1/10) → audioSyncCorrection d = 1/20 := by
    intro d h
    have hneg : d < 0 := by linarith
    have habs : (1/10 : ℚ) < |d| := by rw [abs_of_neg hneg]; linarith
    simp only [audioSyncCorrection]
    rw [if_pos habs, if_pos hneg]
  have h2 : ∀ d : ℚ, (1/10 : ℚ) < d → audioSyncCorrection d = -(1/20) := by
    intro d h
    have hpos : (0 : ℚ) < d := by linarith
    have habs : (1/10 : ℚ) < |d| := by rw [abs_of_pos hpos]; linarith
    simp only [audioSyncCorrection]
    rw [if_pos habs, if_neg (not_lt.mpr (le_of_lt hpos))]
  have h3 : ∀ d : ℚ, |d| ≤ 1/10 → audioSyncCorrection d = 0 := by
    intro d h
    simp only [audioSyncCorrection]
    rw [if_neg (not_lt.mpr h)]
  have h4 : ∀ d : ℚ, (1/10 : ℚ) < |d| → audioSyncCorrection d ≠ 0 := by
    intro d h
    simp only [audioSyncCorrection]
    rw [if_pos h]
    by_cases hneg : d < 0
    · rw [if_pos hneg]; norm_num
    · rw [if_neg hneg]; norm_num
  refine ⟨?_, ?_, ?_, ?_, ?_⟩
  · intro h
    simp only [audioSync]
    rw [h1 _ h]
  · intro h
    simp only [audioSync]
    rw [h2 _ h]
    ring
  · intro h
    simp only [audioSync]
    rw [h3 _ h]
    ring
  · intro hne
    by_contra hc
    apply hne
    simp only [audioSync]
    rw [h3 _ (not_lt.mp hc)]
    ring
  · intro habs hc
    apply h4 _ habs
    have hsync : audioSync v p now = v := hc
    simp only [audioSync] at hsync
    linarith

/-- Witness for C3_drift_correction: a large negative drift adds 0.05, a large
positive drift subtracts 0.05, and an in-band drift leaves the clock alone. -/
theorem C3_drift_correction_witness :
    audioSync 0 0 1 = 0 + 1/20 ∧ audioSync 1 0 0 = 1 - 1/20 ∧
    audioSync 0 0 (1/20) = 0 :=
  ⟨(C3_drift_correction 0 0 1).1 (by norm_num [audioSyncDelta]),
   (C3_drift_correction 1 0 0).2.1 (by norm_num [audioSyncDelta]),
   (C3_drift_correction 0 0 (1/20)).2.2.1 (by norm_num [audioSyncDelta, abs_le])⟩

/-- Claim C6: after a delivery attempt, the audio PTS is advanced by
originalByteSize / (channels * sampleRate * bytesPerSample) exactly when the
sink's write returned false and the frame's sample rate is positive; a write
returning true, or a zero sample rate, leaves the PTS unchanged. -/
theorem C6_pts_advance (pts : ℚ) (obs ch sr bps : Nat) :
    advanceAudioPTS pts true obs ch sr bps = pts ∧
    (0 < sr → advanceAudioPTS pts false obs ch sr bps =
      pts + frame_clock obs ch sr bps) ∧
    advanceAudioPTS pts false obs ch 0 bps = pts := by
  refine ⟨?_, ?_, ?_⟩
  · simp [advanceAudioPTS]
  · intro h
    simp [advanceAudioPTS, Nat.pos_iff_ne_zero.mp h]
  · simp [advanceAudioPTS]

/-- Witness for C6_pts_advance at a rejected write with a 44100 Hz frame. -/
theorem C6_pts_advance_witness :
    advanceAudioPTS 2 false 4 2 44100 2 = 2 + frame_clock 4 2 44100 2 :=
  (C6_pts_advance 2 4 2 44100 2).2.1 (by norm_num)

/-- Claim C4, counterexample: the zero-size flush-marker packet is popped and
its iteration ends (break out of the inner loop) with no `av_packet_unref`
event, so this exit path leaves the popped packet unreleased, contrary to the
claim that every path releases the held packet. -/
theorem C4_counterexample :
    (innerStep 1 true false false true
        { stream_index := 0, pts := none, size := 0 }).events = [] ∧
    (innerStep 1 true false false true
        { stream_index := 0, pts := none, size := 0 }).exit =
      InnerExit.breakLoop :=
  ⟨rfl, rfl⟩

/-- Claim C4 (amended): within one inner-loop iteration the popped packet is
unreferenced exactly when the iteration reaches the handleAudioPacket stage —
i.e. when the thread is past first-packet initialization (or the first packet
carries a PTS and no seek-while-paused postponement fires) and the packet is
not the zero-size flush marker.  The two exceptions to the claim are the
zero-size flush break and the missing-first-PTS return, which leave the popped
packet unreleased.  A postponed packet is released by the next iteration's
postponed block (which always unreferences) or by the catch handler. -/
theorem C4_release_paths (tb : ℚ) (inited seeking paused handled s : Bool)
    (pkt : Packet) :
    (AudioEvent.unref ∈ (innerStep tb inited seeking paused handled pkt).events ↔
      ((inited = true ∨ (pkt.pts.isSome = true ∧ seeking = false)) ∧
        pkt.size ≠ 0)) ∧
    AudioEvent.unref ∈ postponedStep s ∧
    catchReleases true = true := by
  refine ⟨?_, ?_, rfl⟩
  · rcases pkt with ⟨idx, pts, sz⟩
    cases inited <;> cases seeking <;> cases pts <;> by_cases hsz : sz = 0 <;>
      cases handled <;> cases paused <;>
      simp [innerStep, innerBody, hsz]
  · cases s <;> simp [postponedStep]

/-- Claim C5: if the very first popped packet has no valid PTS the loop
returns (thread terminates) with no events; if it has one, the audio
presentation clock baseline is the packet PTS scaled by the stream time base,
and the baseline event is the first event of the iteration — before any
handleAudioPacket (hence any audio delivery). -/
theorem C5_first_packet (tb : ℚ) (seeking paused handled : Bool)
    (idx sz : Nat) (p : Int) :
    innerStep tb false seeking paused handled
        { stream_index := idx, pts := none, size := sz } =
      { exit := InnerExit.returnThread, events := [], postponed := false,
        inited := false, seeking := seeking } ∧
    (innerStep tb false seeking paused handled
        { stream_index := idx, pts := some p, size := sz }).events.head? =
      some (AudioEvent.baseline (tb * (p : ℚ))) := by
  constructor
  · rfl
  · cases seeking <;> by_cases hsz : sz = 0 <;> cases handled <;> cases paused <;>
      simp [innerStep, innerBody, hsz]

/-- `needRebuild` is false exactly when the frame's source signature matches
the cached preference. -/
theorem needRebuild_eq_false_iff (pref : AudioPrefs) (f : FrameInfo) :
    needRebuild pref f = false ↔
      (f.format = pref.format ∧ f.channel_layout = pref.channel_layout ∧
        f.sample_rate = pref.frequency) := by
  simp [needRebuild, and_assoc]

/-- The rebuild flag returned by `rebuildIfNeeded` is the `needRebuild` test. -/
theorem rebuild_flag (env : LibEnv) (st : ResampleState) (f : FrameInfo) :
    (rebuildIfNeeded env st f).2 = needRebuild st.pref f := by
  by_cases hr : needRebuild st.pref f <;> simp [rebuildIfNeeded, hr]

/-- After a triggered rebuild the stored context is whatever the allocator
returned (kept even when null or when `swr_init` failed) and the cached
preference is the frame's signature. -/
theorem rebuild_swrContext (env : LibEnv) (st : ResampleState) (f : FrameInfo)
    (h : needRebuild st.pref f = true) :
    (rebuildIfNeeded env st f).1.swrContext =
      env.alloc f.format f.channel_layout f.sample_rate ∧
    (rebuildIfNeeded env st f).1.pref =
      { format := f.format, channels := f.channels,
        channel_layout := f.channel_layout, frequency := f.sample_rate } := by
  simp [rebuildIfNeeded, h]

/-- A frame never mismatches its own signature. -/
theorem needRebuild_self (f : FrameInfo) :
    needRebuild
      { format := f.format, channels := f.channels,
        channel_layout := f.channel_layout, frequency := f.sample_rate } f =
      false := by
  simp [needRebuild]

/-- No rebuild happens across any run of frames whose signature matches the
cached preference. -/
theorem processSigRebuilds_replicate_of_match (env : LibEnv)
    (st : ResampleState) (f : FrameInfo) (h : needRebuild st.pref f = false) :
    ∀ n, processSigRebuilds env st (List.replicate n f) = 0 := by
  intro n
  induction n with
  | zero => rfl
  | succ k ih =>
    simp [List.replicate_succ, processSigRebuilds, rebuildIfNeeded, h, ih]

/-- Oracle set in which `swr_alloc_set_opts` always fails (returns null). -/
def allocFailEnv : LibEnv :=
  { alloc := fun _ _ _ => none, initOk := fun _ => true,
    convert := fun _ _ _ => 1024, samplesBufferSize := fun _ _ _ => 4096,
    bytesPerSample := fun _ => 2 }

/-- Oracle set in which allocation succeeds (context handle 7) but `swr_init`
fails. -/
def initFailEnv : LibEnv :=
  { alloc := fun _ _ _ => some 7, initOk := fun _ => false,
    convert := fun _ _ _ => 1024, samplesBufferSize := fun _ _ _ => 4096,
    bytesPerSample := fun _ => 2 }

/-- A 1024-sample stereo frame (format 0, layout 3) at 44100 Hz. -/
def frame0 : FrameInfo :=
  { nb_samples := 1024, format := 0, channels := 2, channel_layout := 3,
    sample_rate := 44100 }

/-- A resampler state (no context) whose cached signature does not match
`frame0`. -/
def mismatchState : ResampleState :=
  { swrContext := none,
    pref := { format := 99, channels := 2, channel_layout := 3,
              frequency := 48000 } }

/-- A resampler state whose cached signature matches `frame0` but which holds
no conversion context — exactly what an allocation failure leaves behind. -/
def matchedNoCtxState : ResampleState :=
  { swrContext := none,
    pref := { format := 0, channels := 2, channel_layout := 3,
              frequency := 44100 } }

/-- The fixed target output settings used by the concrete scenarios. -/
def settings0 : AudioSettings :=
  { channel_layout := 3, format := 8, frequency := 48000, channels := 2 }

/-- A player state starting from `mismatchState` with an empty scratch buffer. -/
def pstate0 : PlayerState :=
  { rs := mismatchState, resampleBufSize := 0, audioPTS := 0,
    videoStartClock := 0 }

/-- Claim C7, counterexample: after an allocation failure the cached signature
equals the frame's signature while no context exists; the next identical frame
triggers no rebuild, refuting "rebuilds if and only if the signature differs
or no conversion context exists yet" — the code's condition never consults the
context pointer. -/
theorem C7_counterexample :
    (rebuildIfNeeded allocFailEnv mismatchState frame0).1 = matchedNoCtxState ∧
    matchedNoCtxState.swrContext = none ∧
    (rebuildIfNeeded allocFailEnv matchedNoCtxState frame0).2 = false :=
  ⟨rfl, rfl, rfl⟩

/-- Claim C7 (amended): the conversion context is rebuilt if and only if the
frame's source signature differs from the cached signature of the previously
processed frame (the existence of a context is not part of the condition);
across a run of identical-signature frames matching the cache no rebuild
occurs, and a signature change causes exactly one rebuild over that run. -/
theorem C7_rebuild_iff (env : LibEnv) (st : ResampleState) (f : FrameInfo)
    (n : Nat) :
    ((rebuildIfNeeded env st f).2 = true ↔
      ¬(f.format = st.pref.format ∧ f.channel_layout = st.pref.channel_layout ∧
        f.sample_rate = st.pref.frequency)) ∧
    ((f.format = st.pref.format ∧ f.channel_layout = st.pref.channel_layout ∧
        f.sample_rate = st.pref.frequency) →
      processSigRebuilds env st (List.replicate n f) = 0) ∧
    (¬(f.format = st.pref.format ∧ f.channel_layout = st.pref.channel_layout ∧
        f.sample_rate = st.pref.frequency) →
      processSigRebuilds env st (List.replicate (n + 1) f) = 1) := by
  have hiff := needRebuild_eq_false_iff st.pref f
  refine ⟨?_, ?_, ?_⟩
  · rw [rebuild_flag]
    constructor
    · intro htrue hm
      have hfalse := hiff.mpr hm
      rw [htrue] at hfalse
      exact Bool.noConfusion hfalse
    · intro hm
      cases hb : needRebuild st.pref f
      · exact absurd (hiff.mp hb) hm
      · rfl
  · intro hm
    exact processSigRebuilds_replicate_of_match env st f (hiff.mpr hm) n
  · intro hm
    have hr : needRebuild st.pref f = true := by
      cases hb : needRebuild st.pref f
      · exact absurd (hiff.mp hb) hm
      · rfl
    rw [List.replicate_succ]
    simp only [processSigRebuilds]
    rw [show (rebuildIfNeeded env st f).2 = true from (rebuild_flag env st f).trans hr]
    have hpref := (rebuild_swrContext env st f hr).2
    have hzero : processSigRebuilds env (rebuildIfNeeded env st f).1
        (List.replicate n f) = 0 := by
      apply processSigRebuilds_replicate_of_match
      rw [hpref]
      exact needRebuild_self f
    simp [hzero]

/-- Witness for C7_rebuild_iff: one rebuild over three identical frames after
a signature change, none over two identical frames matching the cache. -/
theorem C7_rebuild_iff_witness :
    processSigRebuilds allocFailEnv mismatchState
      (List.replicate (2 + 1) frame0) = 1 ∧
    processSigRebuilds allocFailEnv matchedNoCtxState
      (List.replicate 2 frame0) = 0 :=
  ⟨(C7_rebuild_iff allocFailEnv mismatchState frame0 2).2.2 (by decide),
   (C7_rebuild_iff allocFailEnv matchedNoCtxState frame0 2).2.1 (by decide)⟩

/-- Claim C8, counterexample: when allocation succeeds but `swr_init` fails,
the non-null context is kept and the conversion path is still taken — the
frame is resampled (outcome source `resampled`), not passed through as raw
bytes, refuting the claim for the initialization-failure mode. -/
theorem C8_counterexample :
    initFailEnv.initOk 7 = false ∧
    (rebuildIfNeeded initFailEnv mismatchState frame0).1.swrContext = some 7 ∧
    (frameStep initFailEnv settings0 false true 0 pstate0 frame0).2 =
      FrameOutcome.delivered DataSrc.resampled 4096 true :=
  ⟨rfl, rfl, rfl⟩

/-- Claim C8 (amended): when context allocation fails (null context), the
frame's raw decoded bytes of the original byte size are delivered unchanged;
when allocation succeeds but initialization fails, the allocated context is
stored regardless, so the conversion path is still entered for the frame. -/
theorem C8_failure_modes (env env2 : LibEnv) (settings : AudioSettings)
    (w : Bool) (now : ℚ) (st : PlayerState) (st2 : ResampleState)
    (f : FrameInfo) (ctx : Nat)
    (hnb : f.nb_samples ≠ 0)
    (hneed : needRebuild st.rs.pref f = true)
    (halloc : env.alloc f.format f.channel_layout f.sample_rate = none)
    (hobs : 0 < env.samplesBufferSize f.channels f.nb_samples f.format)
    (hneed2 : needRebuild st2.pref f = true)
    (halloc2 : env2.alloc f.format f.channel_layout f.sample_rate = some ctx) :
    (frameStep env settings false w now st f).2 =
      FrameOutcome.delivered DataSrc.raw
        (env.samplesBufferSize f.channels f.nb_samples f.format) w ∧
    (rebuildIfNeeded env2 st2 f).1.swrContext = some ctx := by
  constructor
  · have hctx : (rebuildIfNeeded env st.rs f).1.swrContext = none :=
      (rebuild_swrContext env st.rs f hneed).1.trans halloc
    simp [frameStep, hnb, convertStage, hctx, hobs]
  · exact (rebuild_swrContext env2 st2 f hneed2).1.trans halloc2

/-- Witness for C8_failure_modes on the concrete scenario. -/
theorem C8_failure_modes_witness :
    (frameStep allocFailEnv settings0 false true 0 pstate0 frame0).2 =
      FrameOutcome.delivered DataSrc.raw
        (allocFailEnv.samplesBufferSize frame0.channels frame0.nb_samples
          frame0.format) true ∧
    (rebuildIfNeeded initFailEnv mismatchState frame0).1.swrContext = some 7 :=
  C8_failure_modes allocFailEnv initFailEnv settings0 true 0 pstate0
    mismatchState frame0 7 (by decide) (by decide) rfl (by decide) (by decide)
    rfl

/-- A stream-switch environment in which `avcodec_find_decoder` fails. -/
def senvFail : StreamEnv :=
  { paramsToCtxOk := true, findDecoderOk := false, openOk := true }

/-- A nonempty packet on stream 1 used by the stream-switch scenario. -/
def pkt1 : Packet := { stream_index := 1, pts := some 0, size := 10 }

/-- A nonempty packet on stream 0 used by the cancellation scenario. -/
def pkt0 : Packet := { stream_index := 0, pts := some 0, size := 10 }

/-- Claim C9: a packet whose stream index differs from the active descriptor
closes the old decoder, switches the descriptor to the packet's stream (even
on failure), and when finding or opening the decoder fails, handleAudioPacket
returns handled = false with no frames emitted; in the outer loop that false
result only breaks the current consumption burst (inner-loop break), not the
thread. -/
theorem C9_stream_switch_failure (env : LibEnv) (settings : AudioSettings)
    (senv : StreamEnv) (sendOk : Bool) (frames : List FrameInfo)
    (cancel writeOk : Nat → Bool) (now : Nat → ℚ) (active : Nat)
    (pkt : Packet) (st : PlayerState) (tb : ℚ) (seeking paused : Bool)
    (hdiff : pkt.stream_index ≠ active)
    (hfail : streamSwitchOk senv = false)
    (hsize : pkt.size ≠ 0) :
    handleAudioPacketM env settings senv sendOk frames cancel writeOk now
        active pkt st =
      { handled := false, activeStream := pkt.stream_index,
        closedOldDecoder := true, state := st, outcomes := [] } ∧
    (innerStep tb true seeking paused
        (handleAudioPacketM env settings senv sendOk frames cancel writeOk now
          active pkt st).handled pkt).exit = InnerExit.breakLoop := by
  have hr : handleAudioPacketM env settings senv sendOk frames cancel writeOk
      now active pkt st =
      { handled := false, activeStream := pkt.stream_index,
        closedOldDecoder := true, state := st, outcomes := [] } := by
    unfold handleAudioPacketM
    rw [if_pos hdiff, if_neg (by simp [hfail])]
  refine ⟨hr, ?_⟩
  rw [hr]
  simp [innerStep, innerBody, hsize]

/-- Witness for C9_stream_switch_failure: a packet on stream 1 against active
stream 0 with a failing decoder lookup. -/
theorem C9_stream_switch_failure_witness :
    handleAudioPacketM allocFailEnv settings0 senvFail true [] (fun _ => false)
        (fun _ => true) (fun _ => 0) 0 pkt1 pstate0 =
      { handled := false, activeStream := pkt1.stream_index,
        closedOldDecoder := true, state := pstate0, outcomes := [] } ∧
    (innerStep 0 true false false
        (handleAudioPacketM allocFailEnv settings0 senvFail true []
          (fun _ => false) (fun _ => true) (fun _ => 0) 0 pkt1 pstate0).handled
        pkt1).exit = InnerExit.breakLoop :=
  C9_stream_switch_failure allocFailEnv settings0 senvFail true []
    (fun _ => false) (fun _ => true) (fun _ => 0) 0 pkt1 pstate0 0 false false
    (by decide) (by decide) (by decide)

/-- Claim C10: if cancellation is pending at the pre-delivery check of a frame
with a positive byte count, that frame's step yields `cancelled`,
handleAudioPacket returns false immediately with all remaining frames of the
packet abandoned (the outcome list stops at the cancelled frame), and in the
outer loop the false result breaks the consumption burst. -/
theorem C10_cancel_abandons (env : LibEnv) (settings : AudioSettings)
    (senv : StreamEnv) (cancel writeOk : Nat → Bool) (now : Nat → ℚ)
    (st : PlayerState) (f : FrameInfo) (fs : List FrameInfo)
    (tb : ℚ) (seeking paused : Bool) (pkt : Packet)
    (ws : Nat) (src : DataSrc)
    (hnb : f.nb_samples ≠ 0)
    (hcv : (convertStage env settings st.resampleBufSize
        (rebuildIfNeeded env st.rs f).1.swrContext f
        (env.samplesBufferSize f.channels f.nb_samples f.format)).2 =
      some (ws, src))
    (hws : 0 < ws)
    (hc : cancel 0 = true)
    (hsize : pkt.size ≠ 0) :
    (frameStep env settings (cancel 0) (writeOk 0) (now 0) st f).2 =
      FrameOutcome.cancelled ∧
    (handleAudioPacketM env settings senv true (f :: fs) cancel writeOk now
      pkt.stream_index pkt st).handled = false ∧
    (handleAudioPacketM env settings senv true (f :: fs) cancel writeOk now
      pkt.stream_index pkt st).outcomes = [FrameOutcome.cancelled] ∧
    (innerStep tb true seeking paused
      (handleAudioPacketM env settings senv true (f :: fs) cancel writeOk now
        pkt.stream_index pkt st).handled pkt).exit = InnerExit.breakLoop := by
  have hstep : (frameStep env settings (cancel 0) (writeOk 0) (now 0) st f).2 =
      FrameOutcome.cancelled := by
    simp [frameStep, hnb, hcv, hws, hc]
  have hpf : (processFrames env settings cancel writeOk now st 0 (f :: fs)).2 =
      ([FrameOutcome.cancelled], false) := by
    simp [processFrames, hstep]
  have hh : (handleAudioPacketM env settings senv true (f :: fs) cancel writeOk
      now pkt.stream_index pkt st).handled = false := by
    unfold handleAudioPacketM
    rw [if_neg (by simp)]
    simp [decodeBody, hpf]
  refine ⟨hstep, hh, ?_, ?_⟩
  · unfold handleAudioPacketM
    rw [if_neg (by simp)]
    simp [decodeBody, hpf]
  · rw [hh]
    simp [innerStep, innerBody, hsize]

/-- Witness for C10_cancel_abandons: cancellation pending while a normally
resampled frame with 4096 produced bytes awaits delivery, one further frame
queued behind it. -/
theorem C10_cancel_abandons_witness :
    (frameStep initFailEnv settings0 true true 0 pstate0 frame0).2 =
      FrameOutcome.cancelled ∧
    (handleAudioPacketM initFailEnv settings0 senvFail true [frame0, frame0]
      (fun _ => true) (fun _ => true) (fun _ => 0) pkt0.stream_index pkt0
      pstate0).handled = false ∧
    (handleAudioPacketM initFailEnv settings0 senvFail true [frame0, frame0]
      (fun _ => true) (fun _ => true) (fun _ => 0) pkt0.stream_index pkt0
      pstate0).outcomes = [FrameOutcome.cancelled] ∧
    (innerStep 0 true false false
      (handleAudioPacketM initFailEnv settings0 senvFail true [frame0, frame0]
        (fun _ => true) (fun _ => true) (fun _ => 0) pkt0.stream_index pkt0
        pstate0).handled pkt0).exit = InnerExit.breakLoop :=
  C10_cancel_abandons initFailEnv settings0 senvFail (fun _ => true)
    (fun _ => true) (fun _ => 0) pstate0 frame0 [frame0] 0 false false pkt0
    4096 DataSrc.resampled (by decide) rfl (by decide) rfl (by decide)

end FFmpegPlayer
